import Mathlib

set_option autoImplicit false
set_option linter.unusedVariables false

/-!
Shallow embedding of the repository provisioning workflow of
`src/app/hugging_face.py` (class `HuggingFaceRepositoryCreator`) and
`src/deployment/hugging_face_space/hub.py`.

External collaborators — the hub API (`whoami`, `create_repo`) and the
version-control client (`Repository`, `git_add`, `git_commit`, `git_push`)
— are modelled as an environment of call results.  Filesystem state is an
explicit association list from path strings to file contents plus a list of
existing directories.  Every embedded function also returns the list of
external and filesystem events it produced, in order, so that sequencing
claims can be stated on the trace.  Paths are uninterpreted strings joined
with a slash; no normalisation is modelled.
-/

namespace MlOpsToolkit

/-- Error taxonomy of the spec.  Which error an external call produces is part
of the environment; the orchestration code only propagates them. -/
inductive Err where
  | authenticationError
  | invalidConfigurationError
  | networkError
  | cloneError
  | fileSystemError
  | versionControlError
  | repositoryExistsError
  deriving DecidableEq

/-- The arguments of a `create_repo` call as issued by the source
(`repo_id`, `repo_type`, `space_sdk`, `space_hardware`, `private`,
`exist_ok`). -/
structure CreateRepoArgs where
  repoId : String
  repoType : String
  spaceSdk : String
  spaceHardware : String
  priv : Bool
  existOk : Bool
  deriving DecidableEq

/-- One observable step of a provisioning run: an external call or a
filesystem effect. -/
inductive Event where
  | whoami
  | createRepo (args : CreateRepoArgs)
  | clone (repo_url destination_path : String)
  | mkdir (p : String)
  | touch (p : String)
  | writeFile (p content : String)
  | moveFile (src dst : String)
  | gitAdd
  | gitCommit (message : String)
  | gitPush
  deriving DecidableEq

/-- Results of the external collaborators' calls: the hub client and the
version-control client.  The orchestration code is deterministic given these. -/
structure Env where
  whoami : Except Err String
  createRepo : CreateRepoArgs → Except Err String
  clone : String → String → Except Err Unit
  gitAdd : Except Err Unit
  gitCommit : String → Except Err Unit
  gitPush : Except Err Unit

/-- First value bound to a key in an association list. -/
def findVal (p : String) : List (String × String) → Option String
  | [] => none
  | (k, v) :: es => if k = p then some v else findVal p es

/-- Remove every binding of a key from an association list. -/
def eraseKey (p : String) : List (String × String) → List (String × String)
  | [] => []
  | (k, v) :: es => if k = p then eraseKey p es else (k, v) :: eraseKey p es

/-- A filesystem: files as an association list from path strings to contents,
plus the list of directories known to exist. -/
structure FS where
  files : List (String × String)
  dirs : List String
  deriving DecidableEq

/-- Content of the file at a path, if a file exists there. -/
def FS.read (fs : FS) (p : String) : Option String :=
  findVal p fs.files

/-- `Path.exists()`: something (file or directory) is present at the path. -/
def FS.pathExists (fs : FS) (p : String) : Bool :=
  (fs.read p).isSome || decide (p ∈ fs.dirs)

/-- `open(p, "w")` followed by a full write: truncate and set the content. -/
def FS.write (fs : FS) (p c : String) : FS :=
  ⟨(p, c) :: eraseKey p fs.files, fs.dirs⟩

/-- Delete the file at a path. -/
def FS.removeFile (fs : FS) (p : String) : FS :=
  ⟨eraseKey p fs.files, fs.dirs⟩

/-- `Path.touch()`: creates an empty file when nothing exists at the path;
when something already exists it only updates the modification time, leaving
content untouched. -/
def FS.touch (fs : FS) (p : String) : FS :=
  if fs.pathExists p then fs else fs.write p ""

/-- `Path.mkdir(parents=True, exist_ok=True)` for a directory whose parent
exists. -/
def FS.mkdirP (fs : FS) (p : String) : FS :=
  if p ∈ fs.dirs then fs else ⟨fs.files, p :: fs.dirs⟩

/-- `shutil.move` in the file-to-file case (`os.rename` semantics): fails when
the source file is missing or the destination is an existing directory, and
silently replaces an existing destination file. -/
def FS.move (fs : FS) (src dst : String) : Option FS :=
  if dst ∈ fs.dirs then none
  else
    match fs.read src with
    | none => none
    | some c => some ((fs.removeFile src).write dst c)

/-- `Path(a) / b`: path join with a slash. -/
def joinPath (a b : String) : String :=
  a ++ "/" ++ b

/-- Last path component, as in `pathlib`. -/
def basename (p : String) : String :=
  match (p.splitOn "/").getLast? with
  | some b => b
  | none => p

/-- Index of the last dot in a list of characters. -/
def lastDotIdx : List Char → Option Nat
  | [] => none
  | c :: cs =>
    match lastDotIdx cs with
    | some i => some (i + 1)
    | none => if c = Char.ofNat 46 then some 0 else none

/-- `PurePath.stem`: the final path component without its last suffix; a dot
at the start or the end of the name does not count as a suffix. -/
def stem (p : String) : String :=
  let name := basename p
  match lastDotIdx name.data with
  | none => name
  | some i =>
    if 0 < i then
      if i < name.data.length - 1 then String.mk (name.data.take i) else name
    else name

/-- A single-quote character, spelled via its code point. -/
def squote : String :=
  String.mk [Char.ofNat 39]

/-- The exact text assembled into the local variable `app_content` by
`create_simple_app_file` (src/app/hugging_face.py lines 112-116).  Note the
blank line between the import line and the `def` line: the second appended
piece starts with its own newline. -/
def app_content : String :=
  "import gradio as gr\n\ndef greet(name):\n    return " ++ squote ++ "Hello " ++ squote
    ++ " + name + " ++ squote ++ "!!" ++ squote
    ++ "\niface = gr.Interface(fn=greet, inputs=" ++ squote ++ "text" ++ squote
    ++ ", outputs=" ++ squote ++ "text" ++ squote ++ ")\niface.launch()\n"

/-- The app template exactly as printed in the spec document (section 6),
transcribed for comparison with `app_content`: this is the one definition in
this file taken from the spec's words rather than from the source.  It has no
blank line after the import line. -/
def spec_app_template : String :=
  "import gradio as gr\ndef greet(name):\n    return " ++ squote ++ "Hello " ++ squote
    ++ " + name + " ++ squote ++ "!!" ++ squote
    ++ "\niface = gr.Interface(fn=greet, inputs=" ++ squote ++ "text" ++ squote
    ++ ", outputs=" ++ squote ++ "text" ++ squote ++ ")\niface.launch()\n"

/-- Embeds `HuggingFaceRepositoryCreator.create_repository_on_hub`
(src/app/hugging_face.py lines 41-77): `whoami`, build
`namespace/repo_name` and `Path(destination) / repo_name`, then `create_repo`
with `exist_ok=True`.  Returns the repo url and the destination path, the
values the source stores in `self.repo_url` and `self.destination_path`.
Source defaults: `repo_type="space"`, `space_sdk="gradio"`,
`space_hardware="cpu-basic"`, `private=False`, `destination="."`. -/
def create_repository_on_hub (env : Env)
    (repo_name repo_type space_sdk space_hardware : String) (priv : Bool)
    (destination : String) (tr : List Event) :
    List Event × Except Err (String × String) :=
  let tr := tr ++ [Event.whoami]
  match env.whoami with
  | .error e => (tr, .error e)
  | .ok name =>
    let repo_full_name := name ++ "/" ++ repo_name
    let destination_path := joinPath destination repo_name
    let args : CreateRepoArgs :=
      ⟨repo_full_name, repo_type, space_sdk, space_hardware, priv, true⟩
    let tr := tr ++ [Event.createRepo args]
    match env.createRepo args with
    | .error e => (tr, .error e)
    | .ok repo_url => (tr, .ok (repo_url, destination_path))

/-- Embeds `HuggingFaceRepositoryCreator.clone_repository`
(src/app/hugging_face.py lines 81-96): construct a `Repository` bound to
`destination_path`, which clones there and materialises the local
directory. -/
def clone_repository (env : Env) (repo_url api_token : String)
    (destination_path : String) (fs : FS) (tr : List Event) :
    FS × List Event × Except Err Unit :=
  let tr := tr ++ [Event.clone repo_url destination_path]
  match env.clone repo_url destination_path with
  | .error e => (fs, tr, .error e)
  | .ok _ => (fs.mkdirP destination_path, tr, .ok ())

/-- Embeds `HuggingFaceRepositoryCreator.create_simple_app_file`
(src/app/hugging_face.py lines 100-120): touch `app.py` under the repository
path and write the fixed template into it.  Returns the written path, the
value the source stores in `self.app_filepath`. -/
def create_simple_app_file (fs : FS) (repository_path : String)
    (tr : List Event) : FS × String × List Event :=
  let app_filepath := joinPath repository_path "app.py"
  let fs := fs.touch app_filepath
  let fs := fs.write app_filepath app_content
  (fs, app_filepath,
    tr ++ [Event.touch app_filepath, Event.writeFile app_filepath app_content])

/-- Embeds `HuggingFaceRepositoryCreator.move_app_file`
(src/app/hugging_face.py lines 124-139): `shutil.move` of the given file to
`repository_path / (stem + ".py")`. -/
def move_app_file (fs : FS) (app_filepath : String) (repository_path : String)
    (tr : List Event) : FS × List Event × Except Err String :=
  let app_filename := stem app_filepath
  let new_app_filepath := joinPath repository_path (app_filename ++ ".py")
  match fs.move app_filepath new_app_filepath with
  | none =>
    (fs, tr ++ [Event.moveFile app_filepath new_app_filepath],
      .error Err.fileSystemError)
  | some fs2 =>
    (fs2, tr ++ [Event.moveFile app_filepath new_app_filepath],
      .ok new_app_filepath)

/-- The tail of `setup_repository` (src/app/hugging_face.py lines 170-172):
`git_add`, `git_commit("Initialize Repository App")`, `git_push`, with no
handling around any of the three calls. -/
def setup_repository_vcs (env : Env) (fs : FS) (tr : List Event) :
    FS × List Event × Except Err Unit :=
  let tr := tr ++ [Event.gitAdd]
  match env.gitAdd with
  | .error e => (fs, tr, .error e)
  | .ok _ =>
    let tr := tr ++ [Event.gitCommit "Initialize Repository App"]
    match env.gitCommit "Initialize Repository App" with
    | .error e => (fs, tr, .error e)
    | .ok _ =>
      let tr := tr ++ [Event.gitPush]
      match env.gitPush with
      | .error e => (fs, tr, .error e)
      | .ok _ => (fs, tr, .ok ())

/-- Embeds `HuggingFaceRepositoryCreator.setup_repository`
(src/app/hugging_face.py lines 143-174): ensure `examples/`,
`requirements.txt` and `README.md`, then either write the template `app.py`
(`app_filepath` unset, the source default) or move the given app file in, and
finally add, commit and push.  `app_filepath` defaults to `None` in the
source. -/
def setup_repository (env : Env) (fs : FS) (repository_path : String)
    (app_filepath : Option String) (tr : List Event) :
    FS × List Event × Except Err Unit :=
  let examples_path := joinPath repository_path "examples"
  let requirement_path := joinPath repository_path "requirements.txt"
  let readme_path := joinPath repository_path "README.md"
  let fs := fs.mkdirP examples_path
  let fs := fs.touch requirement_path
  let fs := fs.touch readme_path
  let tr := tr ++
    [Event.mkdir examples_path, Event.touch requirement_path,
      Event.touch readme_path]
  match app_filepath with
  | none =>
    match create_simple_app_file fs repository_path tr with
    | (fs, _, tr) => setup_repository_vcs env fs tr
  | some p =>
    match move_app_file fs p repository_path tr with
    | (fs, tr, .error e) => (fs, tr, .error e)
    | (fs, tr, .ok _) => setup_repository_vcs env fs tr

/-- Embeds `HuggingFaceRepositoryCreator.create_repository`
(src/app/hugging_face.py lines 178-218), the produced entry point: hub
creation, clone, then `setup_repository(repository_path=...)` with no app
file argument.  Its parameters are exactly the source's
(`repo_name`, `repo_type`, `space_sdk`, `space_hardware`, `private`,
`destination`) plus the token held by the object; it accepts no
`source_app_file`.  On success it returns the working-copy path. -/
def create_repository (env : Env) (fs : FS) (api_token : String)
    (repo_name repo_type space_sdk space_hardware : String) (priv : Bool)
    (destination : String) (tr : List Event) :
    FS × List Event × Except Err String :=
  match create_repository_on_hub env repo_name repo_type space_sdk
      space_hardware priv destination tr with
  | (tr, .error e) => (fs, tr, .error e)
  | (tr, .ok (repo_url, destination_path)) =>
    match clone_repository env repo_url api_token destination_path fs tr with
    | (fs, tr, .error e) => (fs, tr, .error e)
    | (fs, tr, .ok _) =>
      match setup_repository env fs destination_path none tr with
      | (fs, tr, .error e) => (fs, tr, .error e)
      | (fs, tr, .ok _) => (fs, tr, .ok destination_path)

/-- Embeds `clone_repository_from_hub`
(src/deployment/hugging_face_space/hub.py lines 58-85), the functional clone
variant: local path is `Path(destination_path) / repo_name`, falling back to
`Path(".") / repo_name` when that joined path does not exist, then clone.
`destination_path` defaults to `"."` in the source.  On success it returns
the directory actually cloned into. -/
def clone_repository_from_hub (env : Env) (fs : FS)
    (repo_url repo_name api_token : String) (destination_path : String)
    (tr : List Event) : FS × List Event × Except Err String :=
  let destination_path := joinPath destination_path repo_name
  let destination_path :=
    if fs.pathExists destination_path then destination_path
    else joinPath "." repo_name
  let tr := tr ++ [Event.clone repo_url destination_path]
  match env.clone repo_url destination_path with
  | .error e => (fs, tr, .error e)
  | .ok _ => (fs.mkdirP destination_path, tr, .ok destination_path)

/-- The url the hub reports for a repository. -/
def urlOf (repo_full_name : String) : String :=
  "https://huggingface.co/" ++ repo_full_name

/-- Modelled from the spec: the hub-side semantics of the external
`create_repo` call, which belongs to the `huggingface_hub` client and is not
part of this repository.  Per the spec's exist-ok policy, creating a name
that already exists succeeds and returns the existing repository's
descriptor when `exist_ok` is set and fails otherwise; a new name is
recorded on the hub. -/
def hub_create_repo (hub : List String) (a : CreateRepoArgs) :
    List String × Except Err String :=
  if a.repoId ∈ hub then
    if a.existOk then (hub, .ok (urlOf a.repoId))
    else (hub, .error Err.repositoryExistsError)
  else (a.repoId :: hub, .ok (urlOf a.repoId))

/-- The namespace a given environment's `whoami` reports (empty on failure);
used to describe traces. -/
def env_namespace (env : Env) : String :=
  match env.whoami with
  | .ok n => n
  | .error _ => ""

/-- The `create_repo` arguments a provisioning run issues under a given
environment. -/
def hub_args (env : Env) (repo_name repo_type space_sdk space_hardware : String)
    (priv : Bool) : CreateRepoArgs :=
  ⟨env_namespace env ++ "/" ++ repo_name, repo_type, space_sdk, space_hardware,
    priv, true⟩

/-- The url a provisioning run clones from under a given environment (empty
on hub failure). -/
def hub_url (env : Env) (repo_name repo_type space_sdk space_hardware : String)
    (priv : Bool) : String :=
  match env.createRepo (hub_args env repo_name repo_type space_sdk
      space_hardware priv) with
  | .ok u => u
  | .error _ => ""

/-- The full, ordered event trace of a provisioning run in which every
external call succeeds. -/
def run_full_trace (env : Env)
    (repo_name repo_type space_sdk space_hardware : String) (priv : Bool)
    (destination : String) : List Event :=
  let a := hub_args env repo_name repo_type space_sdk space_hardware priv
  let u := hub_url env repo_name repo_type space_sdk space_hardware priv
  let dp := joinPath destination repo_name
  [Event.whoami, Event.createRepo a, Event.clone u dp,
    Event.mkdir (joinPath dp "examples"),
    Event.touch (joinPath dp "requirements.txt"),
    Event.touch (joinPath dp "README.md"),
    Event.touch (joinPath dp "app.py"),
    Event.writeFile (joinPath dp "app.py") app_content,
    Event.gitAdd, Event.gitCommit "Initialize Repository App", Event.gitPush]

/-- Recognises commit events in a trace. -/
def Event.isCommit : Event → Bool
  | Event.gitCommit _ => true
  | _ => false

/-! ### Basic lemmas about the filesystem model -/

theorem findVal_eraseKey_self (p : String) (l : List (String × String)) :
    findVal p (eraseKey p l) = none := by
  induction l with
  | nil => rfl
  | cons kv es ih =>
    obtain ⟨k, v⟩ := kv
    by_cases h : k = p <;> simp [eraseKey, findVal, h, ih]

theorem findVal_eraseKey_ne (p q : String) (l : List (String × String))
    (h : q ≠ p) : findVal q (eraseKey p l) = findVal q l := by
  induction l with
  | nil => rfl
  | cons kv es ih =>
    obtain ⟨k, v⟩ := kv
    by_cases hk : k = p
    · subst hk
      have : k ≠ q := fun he => h he.symm
      simp [eraseKey, findVal, this, ih]
    · by_cases hq : k = q
      · subst hq
        simp [eraseKey, findVal, hk, h, ih]
      · simp [eraseKey, findVal, hk, hq, ih]

theorem FS.read_write_self (fs : FS) (p c : String) :
    (fs.write p c).read p = some c := by
  simp [FS.read, FS.write, findVal]

theorem FS.read_write_ne (fs : FS) (p c q : String) (h : q ≠ p) :
    (fs.write p c).read q = fs.read q := by
  have : p ≠ q := fun he => h he.symm
  simp [FS.read, FS.write, findVal, this, findVal_eraseKey_ne p q fs.files h]

theorem FS.read_removeFile_self (fs : FS) (p : String) :
    (fs.removeFile p).read p = none := by
  simp [FS.read, FS.removeFile, findVal_eraseKey_self]

theorem FS.read_removeFile_ne (fs : FS) (p q : String) (h : q ≠ p) :
    (fs.removeFile p).read q = fs.read q := by
  simp [FS.read, FS.removeFile, findVal_eraseKey_ne p q fs.files h]

theorem FS.write_dirs (fs : FS) (p c : String) : (fs.write p c).dirs = fs.dirs :=
  rfl

theorem FS.touch_dirs (fs : FS) (p : String) : (fs.touch p).dirs = fs.dirs := by
  unfold FS.touch
  by_cases h : fs.pathExists p <;> simp [h, FS.write_dirs]

theorem FS.removeFile_dirs (fs : FS) (p : String) :
    (fs.removeFile p).dirs = fs.dirs := rfl

theorem FS.mkdirP_read (fs : FS) (p q : String) :
    (fs.mkdirP p).read q = fs.read q := by
  unfold FS.mkdirP
  by_cases h : p ∈ fs.dirs <;> simp [h, FS.read]

theorem FS.mkdirP_dirs_mem (fs : FS) (p q : String) (hne : q ≠ p)
    (hq : q ∉ fs.dirs) : q ∉ (fs.mkdirP p).dirs := by
  unfold FS.mkdirP
  by_cases h : p ∈ fs.dirs <;> simp [h, hne, hq]

theorem FS.read_touch_of_some (fs : FS) (q p c : String)
    (h : fs.read p = some c) : (fs.touch q).read p = some c := by
  unfold FS.touch
  by_cases hq : fs.pathExists q
  · simp [hq, h]
  · by_cases he : p = q
    · subst he
      simp [FS.pathExists, h] at hq
    · simp [hq, FS.read_write_ne fs q "" p he, h]

theorem FS.read_touch_ne (fs : FS) (q p : String) (h : p ≠ q) :
    (fs.touch q).read p = fs.read p := by
  unfold FS.touch
  by_cases hq : fs.pathExists q
  · simp [hq]
  · simp [hq, FS.read_write_ne fs q "" p h]

theorem FS.read_touch_self_of_not_exists (fs : FS) (p : String)
    (h : fs.pathExists p = false) : (fs.touch p).read p = some "" := by
  simp [FS.touch, h, FS.read_write_self]

theorem FS.pathExists_false_of_parts (fs : FS) (p : String)
    (h1 : fs.read p = none) (h2 : p ∉ fs.dirs) : fs.pathExists p = false := by
  simp [FS.pathExists, h1, h2]

theorem FS.pathExists_read_none (fs : FS) (p : String)
    (h : fs.pathExists p = false) : fs.read p = none := by
  cases hr : fs.read p with
  | none => rfl
  | some c => simp [FS.pathExists, hr] at h

theorem FS.pathExists_not_dir (fs : FS) (p : String)
    (h : fs.pathExists p = false) : p ∉ fs.dirs := by
  intro hm
  simp [FS.pathExists, hm] at h

/-! ### Path lemmas -/

theorem string_append_left_cancel (s a b : String) (h : s ++ a = s ++ b) :
    a = b := by
  have hd : (s ++ a).data = (s ++ b).data := by rw [h]
  simp [String.data_append] at hd
  cases a
  cases b
  simp_all

theorem joinPath_right_inj (d a b : String) (h : joinPath d a = joinPath d b) :
    a = b := by
  unfold joinPath at h
  have hd : (d ++ "/" ++ a).data = (d ++ "/" ++ b).data := by rw [h]
  simp [String.data_append] at hd
  cases a
  cases b
  simp_all

theorem joinPath_right_ne (d a b : String) (h : a ≠ b) :
    joinPath d a ≠ joinPath d b :=
  fun he => h (joinPath_right_inj d a b he)

theorem append_py_ne (s t : String)
    (h : t.data.getLast? ≠ some (Char.ofNat 121)) : s ++ ".py" ≠ t := by
  intro he
  apply h
  rw [← he]
  have hdata : (s ++ ".py").data
      = s.data ++ [Char.ofNat 46, Char.ofNat 112, Char.ofNat 121] := by
    simp [String.data_append]
  rw [hdata, List.getLast?_append]
  rfl

/-! ### Behaviour of the version-control tail of `setup_repository` -/

theorem setup_repository_vcs_fs (env : Env) (fs : FS) (tr : List Event) :
    (setup_repository_vcs env fs tr).1 = fs := by
  unfold setup_repository_vcs
  cases env.gitAdd with
  | error e => rfl
  | ok u =>
    cases env.gitCommit "Initialize Repository App" with
    | error e => rfl
    | ok u2 =>
      cases env.gitPush with
      | error e => rfl
      | ok u3 => rfl

/-- The filesystem a populate run with no app file leaves behind, whatever
the version-control client then does. -/
theorem setup_repository_fs_none (env : Env) (fs : FS) (rp : String)
    (tr : List Event) :
    (setup_repository env fs rp none tr).1 =
      ((((fs.mkdirP (joinPath rp "examples")).touch
          (joinPath rp "requirements.txt")).touch
          (joinPath rp "README.md")).touch
          (joinPath rp "app.py")).write (joinPath rp "app.py") app_content := by
  simp [setup_repository, create_simple_app_file, setup_repository_vcs_fs]

/-- The filesystem a populate run with an app file leaves behind, whatever
the version-control client then does. -/
theorem setup_repository_fs_some (env : Env) (fs : FS) (rp p : String)
    (tr : List Event) :
    (setup_repository env fs rp (some p) tr).1 =
      match (((fs.mkdirP (joinPath rp "examples")).touch
          (joinPath rp "requirements.txt")).touch
          (joinPath rp "README.md")).move p (joinPath rp (stem p ++ ".py")) with
      | none =>
        ((fs.mkdirP (joinPath rp "examples")).touch
          (joinPath rp "requirements.txt")).touch (joinPath rp "README.md")
      | some fs4 => fs4 := by
  unfold setup_repository move_app_file
  simp only []
  cases hm : (((fs.mkdirP (joinPath rp "examples")).touch
      (joinPath rp "requirements.txt")).touch
      (joinPath rp "README.md")).move p (joinPath rp (stem p ++ ".py")) with
  | none => simp [hm]
  | some fs4 => simp [hm, setup_repository_vcs_fs]

/-! ### Concrete environments and filesystems for witnesses -/

/-- An environment in which every external call succeeds. -/
def envAllOk : Env :=
  ⟨.ok "user", fun a => .ok (urlOf a.repoId), fun _ _ => .ok (), .ok (),
    fun _ => .ok (), .ok ()⟩

/-- An environment in which the version-control client's commit call reports
an error — as the real client does when there is nothing to commit — and
every other call succeeds. -/
def envNothingToCommit : Env :=
  ⟨.ok "user", fun a => .ok (urlOf a.repoId), fun _ _ => .ok (), .ok (),
    fun _ => .error Err.versionControlError, .ok ()⟩

/-- An environment whose version-control client accepts exactly one commit
message — the caller's intended "Custom message" — and rejects every other;
all remaining calls succeed.  It observes which message the commit step
actually issues. -/
def envCallerMessage : Env :=
  ⟨.ok "user", fun a => .ok (urlOf a.repoId), fun _ _ => .ok (), .ok (),
    fun m => if m = "Custom message" then .ok ()
      else .error Err.versionControlError, .ok ()⟩

/-- The empty filesystem. -/
def fs0 : FS := ⟨[], []⟩

/-- A filesystem holding one caller-supplied app file at its original path. -/
def fsCustom : FS := ⟨[("my_app.py", "custom code")], []⟩

/-- A working copy `wd` in which `requirements.txt` and `README.md` already
hold non-empty content. -/
def fsPre : FS :=
  ⟨[("wd/requirements.txt", "torch"), ("wd/README.md", "hello")], ["wd"]⟩

/-- The `create_repo` arguments of the scenario run of the spec. -/
def argsDemo : CreateRepoArgs :=
  ⟨"user/demo-space", "space", "gradio", "cpu-basic", false, true⟩

/-! ### The claims -/

/-- C10: in the functional clone variant `clone_repository_from_hub`, the
fallback condition tests the existence of `destination_dir/repo_name`, not of
`destination_dir` itself: for every fresh clone (where
`destination_dir/repo_name` does not yet exist) the clone targets
`./repo_name` regardless of the destination argument, and the destination
argument takes effect only when `destination_dir/repo_name` already exists
before cloning. -/
theorem claim_C10 (env : Env) (fs : FS)
    (repo_url repo_name api_token destination_dir : String) (tr : List Event) :
    (clone_repository_from_hub env fs repo_url repo_name api_token
        destination_dir tr).2.1 =
      tr ++ [Event.clone repo_url
        (if fs.pathExists (joinPath destination_dir repo_name)
          then joinPath destination_dir repo_name
          else joinPath "." repo_name)]
    ∧ (fs.pathExists (joinPath destination_dir repo_name) = false →
        (clone_repository_from_hub env fs repo_url repo_name api_token
            destination_dir tr).2.1 =
          tr ++ [Event.clone repo_url (joinPath "." repo_name)])
    ∧ (fs.pathExists (joinPath destination_dir repo_name) = true →
        (clone_repository_from_hub env fs repo_url repo_name api_token
            destination_dir tr).2.1 =
          tr ++ [Event.clone repo_url (joinPath destination_dir repo_name)]) := by
  refine ⟨?_, ?_, ?_⟩ <;>
    · unfold clone_repository_from_hub
      by_cases h : fs.pathExists (joinPath destination_dir repo_name)
      · simp only [h, if_true]
        cases env.clone repo_url (joinPath destination_dir repo_name) <;>
          simp [h]
      · simp only [h, if_false, Bool.false_eq_true]
        cases env.clone repo_url (joinPath "." repo_name) <;> simp [h]

/-- C10 witness: a fresh clone with destination `sub` and an empty filesystem
targets `./demo-space`. -/
theorem claim_C10_witness :
    (clone_repository_from_hub envAllOk fs0 "url" "demo-space" "token" "sub"
        []).2.1 = [Event.clone "url" (joinPath "." "demo-space")] :=
  (claim_C10 envAllOk fs0 "url" "demo-space" "token" "sub" []).2.1 rfl

/-- C2: for every clone invocation whose `destination_dir` does not exist (in
a filesystem where a path can only exist if its parent does),
`clone_repository_from_hub` does not fail on that account: it falls back to
`repo_name` under the current directory, the clone call targets
`./repo_name`, and when the clone itself succeeds the run returns that local
path. -/
theorem claim_C2 (env : Env) (fs : FS)
    (repo_url repo_name api_token destination_dir : String) (tr : List Event)
    (hwf : fs.pathExists (joinPath destination_dir repo_name) = true →
      fs.pathExists destination_dir = true)
    (hne : fs.pathExists destination_dir = false) :
    (clone_repository_from_hub env fs repo_url repo_name api_token
        destination_dir tr).2.1 =
      tr ++ [Event.clone repo_url (joinPath "." repo_name)]
    ∧ (env.clone repo_url (joinPath "." repo_name) = .ok () →
        (clone_repository_from_hub env fs repo_url repo_name api_token
            destination_dir tr).2.2 = .ok (joinPath "." repo_name)) := by
  have hj : fs.pathExists (joinPath destination_dir repo_name) = false := by
    cases hc : fs.pathExists (joinPath destination_dir repo_name) with
    | false => rfl
    | true => rw [hwf hc] at hne; simp at hne
  constructor
  · unfold clone_repository_from_hub
    simp only [hj, Bool.false_eq_true, if_false]
    cases env.clone repo_url (joinPath "." repo_name) <;> simp
  · intro hcl
    unfold clone_repository_from_hub
    simp [hj, hcl]

/-- C2 witness: with an empty filesystem and a non-existent destination
`sub`, the clone falls back to `./demo-space` and succeeds. -/
theorem claim_C2_witness :
    (clone_repository_from_hub envAllOk fs0 "url" "demo-space" "token" "sub"
        []).2.2 = .ok (joinPath "." "demo-space") :=
  (claim_C2 envAllOk fs0 "url" "demo-space" "token" "sub" []
    (by decide) (by decide)).2 rfl

/-! ### Further helper lemmas for the populate claims -/

theorem FS.read_move_other (fs : FS) (src dst q : String) (fs2 : FS)
    (h : fs.move src dst = some fs2) (h1 : q ≠ src) (h2 : q ≠ dst) :
    fs2.read q = fs.read q := by
  unfold FS.move at h
  by_cases hd : dst ∈ fs.dirs
  · simp [hd] at h
  · cases hr : fs.read src with
    | none => simp [hd, hr] at h
    | some c =>
      simp only [hd, if_neg, hr, if_false] at h
      injection h with h
      rw [← h, FS.read_write_ne _ _ _ _ h2, FS.read_removeFile_ne _ _ _ h1]

theorem FS.pathExists_mkdirP_false (fs : FS) (p q : String) (hne : q ≠ p)
    (h : fs.pathExists q = false) : (fs.mkdirP p).pathExists q = false := by
  apply FS.pathExists_false_of_parts
  · rw [FS.mkdirP_read]
    exact FS.pathExists_read_none fs q h
  · exact FS.mkdirP_dirs_mem fs p q hne (FS.pathExists_not_dir fs q h)

theorem FS.pathExists_touch_false (fs : FS) (p q : String) (hne : q ≠ p)
    (h : fs.pathExists q = false) : (fs.touch p).pathExists q = false := by
  apply FS.pathExists_false_of_parts
  · rw [FS.read_touch_ne fs p q hne]
    exact FS.pathExists_read_none fs q h
  · rw [FS.touch_dirs]
    exact FS.pathExists_not_dir fs q h

/-- `setup_repository` with no app file is definitionally the filesystem
phase followed by the version-control tail. -/
theorem setup_repository_none_eq (env : Env) (fs : FS) (rp : String)
    (tr : List Event) :
    setup_repository env fs rp none tr =
      setup_repository_vcs env
        (((((fs.mkdirP (joinPath rp "examples")).touch
            (joinPath rp "requirements.txt")).touch
            (joinPath rp "README.md")).touch
            (joinPath rp "app.py")).write (joinPath rp "app.py") app_content)
        ((tr ++ [Event.mkdir (joinPath rp "examples"),
            Event.touch (joinPath rp "requirements.txt"),
            Event.touch (joinPath rp "README.md")]) ++
          [Event.touch (joinPath rp "app.py"),
            Event.writeFile (joinPath rp "app.py") app_content]) :=
  rfl

/-- The version-control tail succeeds exactly when the three client calls
succeed, and any failure is one of the client errors, unchanged. -/
theorem setup_repository_vcs_res (env : Env) (fs : FS) (tr : List Event) :
    ((setup_repository_vcs env fs tr).2.2 = .ok () ↔
      (env.gitAdd = .ok () ∧ env.gitCommit "Initialize Repository App" = .ok ()
        ∧ env.gitPush = .ok ()))
    ∧ (∀ e, (setup_repository_vcs env fs tr).2.2 = .error e →
        env.gitAdd = .error e
        ∨ env.gitCommit "Initialize Repository App" = .error e
        ∨ env.gitPush = .error e) := by
  unfold setup_repository_vcs
  cases env.gitAdd with
  | error e => simp
  | ok u =>
    cases env.gitCommit "Initialize Repository App" with
    | error e => simp
    | ok u2 =>
      cases env.gitPush with
      | error e => simp
      | ok u3 => simp

/-- C4 (amended): for every populate invocation with the app file unset, the
file `app.py` at the working-copy root afterwards contains exactly the fixed
template assembled by `create_simple_app_file` — which is the spec's template
text with one extra blank line between the import line and the `def` line. -/
theorem claim_C4 (env : Env) (fs : FS) (repository_path : String)
    (tr : List Event) :
    (setup_repository env fs repository_path none tr).1.read
      (joinPath repository_path "app.py") = some app_content := by
  rw [setup_repository_fs_none]
  exact FS.read_write_self _ _ _

/-- C4 counterexample: after a concrete populate run with the app file unset,
`app.py` does not contain the template text exactly as printed in the spec —
the code writes an additional blank line after the import line — refuting the
character-for-character claim. -/
theorem claim_C4_counterexample :
    (setup_repository envAllOk fs0 "wd" none []).1.read (joinPath "wd" "app.py")
      ≠ some spec_app_template := by
  decide

/-- C6 (amended): the commit-and-push tail of `setup_repository` applies no
special treatment to the nothing-to-commit condition: it completes exactly
when the client's `git_add`, `git_commit` and `git_push` calls all succeed,
and any client failure — including one the client raises for nothing to
commit — is propagated unchanged. -/
theorem claim_C6 (env : Env) (fs : FS) (repository_path : String)
    (tr : List Event) :
    ((setup_repository env fs repository_path none tr).2.2 = .ok () ↔
      (env.gitAdd = .ok () ∧ env.gitCommit "Initialize Repository App" = .ok ()
        ∧ env.gitPush = .ok ()))
    ∧ (∀ e, (setup_repository env fs repository_path none tr).2.2 = .error e →
        env.gitAdd = .error e
        ∨ env.gitCommit "Initialize Repository App" = .error e
        ∨ env.gitPush = .error e) := by
  rw [setup_repository_none_eq]
  exact setup_repository_vcs_res env _ _

/-- C6 counterexample: with a version-control client whose commit call
reports an error when there is nothing to commit — as the real client does —
the commit-and-push step fails with that error instead of completing: the
claimed treat-as-success policy does not exist in the code. -/
theorem claim_C6_counterexample :
    (setup_repository envNothingToCommit fs0 "wd" none []).2.2 =
      .error Err.versionControlError :=
  rfl

/-- C6 witness: when every client call succeeds the step completes. -/
theorem claim_C6_witness :
    (setup_repository envAllOk fs0 "wd" none []).2.2 = .ok () :=
  (claim_C6 envAllOk fs0 "wd" []).1.mpr ⟨rfl, rfl, rfl⟩

/-- C5: for every populate invocation whose app file exists (and whose
destination name is not an existing directory nor the source path itself),
the operation is a move: afterwards `<original-stem>.py` at the working-copy
root holds the source file's content and no file remains at the original
source path. -/
theorem claim_C5 (env : Env) (fs : FS) (repository_path src c : String)
    (tr : List Event)
    (hsrc : fs.read src = some c)
    (hdir : joinPath repository_path (stem src ++ ".py") ∉ fs.dirs)
    (hne : src ≠ joinPath repository_path (stem src ++ ".py")) :
    (setup_repository env fs repository_path (some src) tr).1.read
        (joinPath repository_path (stem src ++ ".py")) = some c
    ∧ (setup_repository env fs repository_path (some src) tr).1.read src
        = none := by
  have hdst_ne_ex : joinPath repository_path (stem src ++ ".py")
      ≠ joinPath repository_path "examples" :=
    joinPath_right_ne _ _ _ (append_py_ne (stem src) "examples" (by decide))
  have h1 : (fs.mkdirP (joinPath repository_path "examples")).read src
      = some c := by
    rw [FS.mkdirP_read]; exact hsrc
  have h2 := FS.read_touch_of_some _ (joinPath repository_path
    "requirements.txt") src c h1
  have h3 := FS.read_touch_of_some _ (joinPath repository_path
    "README.md") src c h2
  have hd3 : joinPath repository_path (stem src ++ ".py") ∉
      ((((fs.mkdirP (joinPath repository_path "examples")).touch
        (joinPath repository_path "requirements.txt")).touch
        (joinPath repository_path "README.md")).dirs) := by
    rw [FS.touch_dirs, FS.touch_dirs]
    exact FS.mkdirP_dirs_mem fs _ _ hdst_ne_ex hdir
  have hmv : ((((fs.mkdirP (joinPath repository_path "examples")).touch
      (joinPath repository_path "requirements.txt")).touch
      (joinPath repository_path "README.md"))).move src
        (joinPath repository_path (stem src ++ ".py")) =
      some ((((((fs.mkdirP (joinPath repository_path "examples")).touch
        (joinPath repository_path "requirements.txt")).touch
        (joinPath repository_path "README.md"))).removeFile src).write
          (joinPath repository_path (stem src ++ ".py")) c) := by
    unfold FS.move
    rw [if_neg hd3, h3]
  constructor
  · rw [setup_repository_fs_some]
    simp only [hmv]
    exact FS.read_write_self _ _ _
  · rw [setup_repository_fs_some]
    simp only [hmv]
    rw [FS.read_write_ne _ _ _ _ hne, FS.read_removeFile_self]

/-- C5 witness: moving an existing `my_app.py` into the working copy `wd`
places its content at `wd/my_app.py` and removes the original. -/
theorem claim_C5_witness :
    (setup_repository envAllOk fsCustom "wd" (some "my_app.py") []).1.read
        (joinPath "wd" (stem "my_app.py" ++ ".py")) = some "custom code"
    ∧ (setup_repository envAllOk fsCustom "wd" (some "my_app.py") []).1.read
        "my_app.py" = none :=
  claim_C5 envAllOk fsCustom "wd" "my_app.py" "custom code" []
    (by decide) (by decide) (by decide)

/-- C3: for every working copy in which `requirements.txt` or `README.md`
already exists, the populate step leaves the file's content unchanged (never
deleted, truncated or overwritten — in particular for non-empty content);
when the path is absent it is created as an empty file.  The only proviso is
that a caller-supplied app file, when one is given at all, is not that very
file. -/
theorem claim_C3 (env : Env) (fs : FS) (repository_path : String)
    (app_filepath : Option String) (tr : List Event) (f : String)
    (hf : f = joinPath repository_path "requirements.txt"
      ∨ f = joinPath repository_path "README.md")
    (hmv : ∀ p, app_filepath = some p → p ≠ f) :
    (∀ c, fs.read f = some c →
      (setup_repository env fs repository_path app_filepath tr).1.read f
        = some c)
    ∧ (fs.pathExists f = false →
      (setup_repository env fs repository_path app_filepath tr).1.read f
        = some "") := by
  have hf_ne_ex : f ≠ joinPath repository_path "examples" := by
    rcases hf with hf | hf <;> rw [hf] <;>
      exact joinPath_right_ne _ _ _ (by decide)
  have hf_ne_app : f ≠ joinPath repository_path "app.py" := by
    rcases hf with hf | hf <;> rw [hf] <;>
      exact joinPath_right_ne _ _ _ (by decide)
  have hf_ne_dst : ∀ p, f ≠ joinPath repository_path (stem p ++ ".py") := by
    intro p
    rcases hf with hf | hf <;> rw [hf] <;>
      exact Ne.symm (joinPath_right_ne _ _ _
        (append_py_ne (stem p) _ (by decide)))
  -- after the mkdir and the two touches the file holds the expected content
  have hmain : ∀ c,
      ((((fs.mkdirP (joinPath repository_path "examples")).touch
        (joinPath repository_path "requirements.txt")).touch
        (joinPath repository_path "README.md")).read f = some c) →
      (setup_repository env fs repository_path app_filepath tr).1.read f
        = some c := by
    intro c h3
    cases app_filepath with
    | none =>
      rw [setup_repository_fs_none]
      rw [FS.read_write_ne _ _ _ _ hf_ne_app]
      exact FS.read_touch_of_some _ _ _ _ h3
    | some p =>
      rw [setup_repository_fs_some]
      cases hm : ((((fs.mkdirP (joinPath repository_path "examples")).touch
          (joinPath repository_path "requirements.txt")).touch
          (joinPath repository_path "README.md"))).move p
            (joinPath repository_path (stem p ++ ".py")) with
      | none => simp only [hm]; exact h3
      | some fs4 =>
        simp only [hm]
        rw [FS.read_move_other _ p _ f fs4 hm
          (Ne.symm (hmv p rfl)) (hf_ne_dst p)]
        exact h3
  constructor
  · intro c hc
    apply hmain
    exact FS.read_touch_of_some _ _ _ _
      (FS.read_touch_of_some _ _ _ _ (by rw [FS.mkdirP_read]; exact hc))
  · intro habs
    apply hmain
    have h1 : (fs.mkdirP (joinPath repository_path "examples")).pathExists f
        = false :=
      FS.pathExists_mkdirP_false fs _ f hf_ne_ex habs
    rcases hf with hf | hf
    · subst hf
      exact FS.read_touch_of_some _ _ _ _
        (FS.read_touch_self_of_not_exists _ _ h1)
    · subst hf
      have hrne : joinPath repository_path "README.md"
          ≠ joinPath repository_path "requirements.txt" :=
        joinPath_right_ne _ _ _ (by decide)
      have h2 : ((fs.mkdirP (joinPath repository_path "examples")).touch
          (joinPath repository_path "requirements.txt")).pathExists
            (joinPath repository_path "README.md") = false :=
        FS.pathExists_touch_false _ _ _ hrne h1
      exact FS.read_touch_self_of_not_exists _ _ h2

/-- C3 witness: a pre-existing non-empty `requirements.txt` in the working
copy `wd` survives a populate run unchanged. -/
theorem claim_C3_witness :
    (setup_repository envAllOk fsPre "wd" none []).1.read
      (joinPath "wd" "requirements.txt") = some "torch" :=
  (claim_C3 envAllOk fsPre "wd" none [] (joinPath "wd" "requirements.txt")
    (Or.inl rfl) (fun p hp => by cases hp)).1 "torch" (by decide)

/-- Master lemma on full runs of the entry point: the produced trace is a
prefix of the canonical ordered full trace; a successful run produces exactly
that trace, returns the working-copy path and leaves the filesystem the
populate phase built over the cloned directory; a failed run surfaces one of
the environment's own errors unchanged. -/
theorem create_repository_run (env : Env) (fs : FS)
    (api_token repo_name repo_type space_sdk space_hardware : String)
    (priv : Bool) (destination : String) :
    (∃ rest,
      run_full_trace env repo_name repo_type space_sdk space_hardware priv
          destination =
        (create_repository env fs api_token repo_name repo_type space_sdk
          space_hardware priv destination []).2.1 ++ rest)
    ∧ (∀ x, (create_repository env fs api_token repo_name repo_type space_sdk
          space_hardware priv destination []).2.2 = .ok x →
        (create_repository env fs api_token repo_name repo_type space_sdk
            space_hardware priv destination []).2.1 =
          run_full_trace env repo_name repo_type space_sdk space_hardware priv
            destination
        ∧ x = joinPath destination repo_name
        ∧ (create_repository env fs api_token repo_name repo_type space_sdk
            space_hardware priv destination []).1 =
          (setup_repository env
            (fs.mkdirP (joinPath destination repo_name))
            (joinPath destination repo_name) none []).1)
    ∧ (∀ e, (create_repository env fs api_token repo_name repo_type space_sdk
          space_hardware priv destination []).2.2 = .error e →
        env.whoami = .error e
        ∨ env.createRepo (hub_args env repo_name repo_type space_sdk
            space_hardware priv) = .error e
        ∨ env.clone (hub_url env repo_name repo_type space_sdk space_hardware
            priv) (joinPath destination repo_name) = .error e
        ∨ env.gitAdd = .error e
        ∨ env.gitCommit "Initialize Repository App" = .error e
        ∨ env.gitPush = .error e) := by
  unfold create_repository create_repository_on_hub clone_repository
    setup_repository create_simple_app_file setup_repository_vcs
    run_full_trace
  cases hw : env.whoami with
  | error e => simp [hub_args, hub_url, env_namespace, hw]
  | ok ns =>
    cases hc : env.createRepo
        ⟨ns ++ "/" ++ repo_name, repo_type, space_sdk, space_hardware, priv,
          true⟩ with
    | error e => simp [hub_args, hub_url, env_namespace, hw, hc]
    | ok u =>
      cases hcl : env.clone u (joinPath destination repo_name) with
      | error e => simp [hub_args, hub_url, env_namespace, hw, hc, hcl]
      | ok u2 =>
        cases ha : env.gitAdd with
        | error e => simp [hub_args, hub_url, env_namespace, hw, hc, hcl, ha]
        | ok u3 =>
          cases hcm : env.gitCommit "Initialize Repository App" with
          | error e =>
            simp [hub_args, hub_url, env_namespace, hw, hc, hcl, ha, hcm]
          | ok u4 =>
            cases hp : env.gitPush with
            | error e =>
              simp [hub_args, hub_url, env_namespace, hw, hc, hcl, ha, hcm, hp]
            | ok u5 =>
              simp [hub_args, hub_url, env_namespace, hw, hc, hcl, ha, hcm, hp]

/-- C8: the four steps run strictly in the order create remote, clone,
populate, commit-and-push — the trace of every run, successful or not, is a
prefix of the canonical ordered full trace, and a successful run produces
exactly that trace — and any step's failure aborts the remaining steps,
surfacing one of the collaborators' own errors unchanged with no wrapping. -/
theorem claim_C8 (env : Env) (fs : FS)
    (api_token repo_name repo_type space_sdk space_hardware : String)
    (priv : Bool) (destination : String) :
    (∃ rest,
      run_full_trace env repo_name repo_type space_sdk space_hardware priv
          destination =
        (create_repository env fs api_token repo_name repo_type space_sdk
          space_hardware priv destination []).2.1 ++ rest)
    ∧ (∀ x, (create_repository env fs api_token repo_name repo_type space_sdk
          space_hardware priv destination []).2.2 = .ok x →
        (create_repository env fs api_token repo_name repo_type space_sdk
            space_hardware priv destination []).2.1 =
          run_full_trace env repo_name repo_type space_sdk space_hardware priv
            destination)
    ∧ (∀ e, (create_repository env fs api_token repo_name repo_type space_sdk
          space_hardware priv destination []).2.2 = .error e →
        env.whoami = .error e
        ∨ env.createRepo (hub_args env repo_name repo_type space_sdk
            space_hardware priv) = .error e
        ∨ env.clone (hub_url env repo_name repo_type space_sdk space_hardware
            priv) (joinPath destination repo_name) = .error e
        ∨ env.gitAdd = .error e
        ∨ env.gitCommit "Initialize Repository App" = .error e
        ∨ env.gitPush = .error e) := by
  obtain ⟨hpre, hok, herr⟩ := create_repository_run env fs api_token repo_name
    repo_type space_sdk space_hardware priv destination
  exact ⟨hpre, fun x hx => (hok x hx).1, herr⟩

/-- C8 witness: in an all-success environment the run succeeds and its trace
is the full ordered trace. -/
theorem claim_C8_witness :
    (create_repository envAllOk fs0 "token" "demo-space" "space" "gradio"
        "cpu-basic" false "." []).2.1 =
      run_full_trace envAllOk "demo-space" "space" "gradio" "cpu-basic" false
        "." :=
  (claim_C8 envAllOk fs0 "token" "demo-space" "space" "gradio" "cpu-basic"
    false ".").2.1 (joinPath "." "demo-space") rfl

/-- C9 counterexample: the commit-and-push step offers no way to carry a
caller-given message.  In a concrete run against a client that would accept
only the caller's intended message "Custom message", the step still issues
its single commit call with the hardcoded "Initialize Repository App" — no
commit event with the caller's message ever occurs, and the run fails on the
client's rejection — refuting the claim that the step commits with a
caller-given message, defaulting only when none is given. -/
theorem claim_C9_counterexample :
    ((setup_repository envCallerMessage fs0 "wd" none []).2.1).filter
        Event.isCommit = [Event.gitCommit "Initialize Repository App"]
    ∧ Event.gitCommit "Custom message" ∉
        (setup_repository envCallerMessage fs0 "wd" none []).2.1
    ∧ (setup_repository envCallerMessage fs0 "wd" none []).2.2 =
        .error Err.versionControlError := by
  refine ⟨by decide, by decide, rfl⟩

/-- C9 (amended): the commit-and-push step accepts no caller-given message:
every commit event any provisioning run ever issues carries the fixed
message "Initialize Repository App" (hardcoded at the commit call), and
every successful run produces exactly one commit event, with that message,
followed by a push. -/
theorem claim_C9 (env : Env) (fs : FS)
    (api_token repo_name repo_type space_sdk space_hardware : String)
    (priv : Bool) (destination : String) :
    (∀ m, Event.gitCommit m ∈ (create_repository env fs api_token repo_name
        repo_type space_sdk space_hardware priv destination []).2.1 →
      m = "Initialize Repository App")
    ∧ (∀ x, (create_repository env fs api_token repo_name repo_type space_sdk
          space_hardware priv destination []).2.2 = .ok x →
        ((create_repository env fs api_token repo_name repo_type space_sdk
            space_hardware priv destination []).2.1).filter Event.isCommit =
          [Event.gitCommit "Initialize Repository App"]
        ∧ Event.gitPush ∈ (create_repository env fs api_token repo_name
            repo_type space_sdk space_hardware priv destination []).2.1) := by
  obtain ⟨⟨rest, hpre⟩, hok, -⟩ := create_repository_run env fs api_token
    repo_name repo_type space_sdk space_hardware priv destination
  constructor
  · intro m hmem
    have hfull : Event.gitCommit m ∈
        run_full_trace env repo_name repo_type space_sdk space_hardware priv
          destination := by
      rw [hpre]
      exact List.mem_append_left _ hmem
    simpa [run_full_trace] using hfull
  · intro x hx
    rw [(hok x hx).1]
    unfold run_full_trace
    constructor
    · simp [Event.isCommit]
    · simp

/-- C9 witness: the scenario run pushes one commit messaged
"Initialize Repository App". -/
theorem claim_C9_witness :
    ((create_repository envAllOk fs0 "token" "demo-space" "space" "gradio"
        "cpu-basic" false "." []).2.1).filter Event.isCommit =
      [Event.gitCommit "Initialize Repository App"] :=
  ((claim_C9 envAllOk fs0 "token" "demo-space" "space" "gradio" "cpu-basic"
    false ".").2 (joinPath "." "demo-space") rfl).1

/-- C7: remote creation is idempotent: every `create_repo` call the hub step
issues carries exist-ok semantics enabled, and under the spec's model of the
hub's exist-ok behaviour a creation whose name already exists succeeds with
the existing repository's descriptor and leaves the hub unchanged, so a
second run with the same name neither errors nor duplicates the remote
repository. -/
theorem claim_C7 :
    (∀ (env : Env) (repo_name repo_type space_sdk space_hardware : String)
        (priv : Bool) (destination : String) (a : CreateRepoArgs),
      Event.createRepo a ∈ (create_repository_on_hub env repo_name repo_type
        space_sdk space_hardware priv destination []).1 → a.existOk = true)
    ∧ (∀ (hub : List String) (a : CreateRepoArgs), a.existOk = true →
        (hub_create_repo hub a).2 = .ok (urlOf a.repoId)
        ∧ (a.repoId ∈ hub → (hub_create_repo hub a).1 = hub)
        ∧ (hub_create_repo (hub_create_repo hub a).1 a).1
            = (hub_create_repo hub a).1) := by
  constructor
  · intro env repo_name repo_type space_sdk space_hardware priv destination
      a hmem
    unfold create_repository_on_hub at hmem
    cases hw : env.whoami with
    | error e =>
      rw [hw] at hmem
      simp at hmem
    | ok ns =>
      rw [hw] at hmem
      simp only [List.nil_append] at hmem
      split at hmem
      · simp at hmem
        rw [hmem]
      · simp at hmem
        rw [hmem]
  · intro hub a hok
    by_cases hm : a.repoId ∈ hub
    · simp [hub_create_repo, hm, hok]
    · refine ⟨?_, ?_, ?_⟩
      · simp [hub_create_repo, hm]
      · intro hmem
        exact absurd hmem hm
      · simp [hub_create_repo, hm, List.mem_cons_self, hok]

/-- C7 witness: the scenario's creation call carries exist-ok, and exist-ok
creation of an already-present name succeeds with its descriptor. -/
theorem claim_C7_witness :
    argsDemo.existOk = true
    ∧ (hub_create_repo ["user/demo-space"] argsDemo).2 =
        .ok (urlOf "user/demo-space") :=
  ⟨claim_C7.1 envAllOk "demo-space" "space" "gradio" "cpu-basic" false "."
      argsDemo (by decide),
    (claim_C7.2 ["user/demo-space"] argsDemo rfl).1⟩

/-- C1 counterexample: the entry point `create_repository` accepts no
`source_app_file` parameter, so a provisioning run cannot thread one: in a
concrete run with an existing caller file `my_app.py`, the file stays at its
original path, nothing appears at `./demo-space/my_app.py`, and the working
copy gets the template `app.py` instead — refuting the claim that the
produced surface moves the caller file into the working copy. -/
theorem claim_C1_counterexample :
    (create_repository envAllOk fsCustom "token" "demo-space" "space" "gradio"
        "cpu-basic" false "." []).1.read "my_app.py" = some "custom code"
    ∧ (create_repository envAllOk fsCustom "token" "demo-space" "space"
        "gradio" "cpu-basic" false "." []).1.read "./demo-space/my_app.py"
        = none
    ∧ (create_repository envAllOk fsCustom "token" "demo-space" "space"
        "gradio" "cpu-basic" false "." []).1.read "./demo-space/app.py"
        = some app_content := by
  decide

/-- C1 (amended): the produced surface's single entry point takes no
`source_app_file` parameter and always invokes the populate step with no app
file: no provisioning run ever performs a file move, and every successful run
writes the fixed template to `app.py` at the working-copy root.  (Only the
populate step `setup_repository`, invoked directly with its `app_filepath`
argument set, moves a caller file, renamed with a `.py` suffix.) -/
theorem claim_C1 (env : Env) (fs : FS)
    (api_token repo_name repo_type space_sdk space_hardware : String)
    (priv : Bool) (destination : String) :
    (∀ src dst, Event.moveFile src dst ∉
      (create_repository env fs api_token repo_name repo_type space_sdk
        space_hardware priv destination []).2.1)
    ∧ (∀ x, (create_repository env fs api_token repo_name repo_type space_sdk
          space_hardware priv destination []).2.2 = .ok x →
        (create_repository env fs api_token repo_name repo_type space_sdk
          space_hardware priv destination []).1.read
            (joinPath (joinPath destination repo_name) "app.py")
          = some app_content) := by
  obtain ⟨⟨rest, hpre⟩, hok, -⟩ := create_repository_run env fs api_token
    repo_name repo_type space_sdk space_hardware priv destination
  constructor
  · intro src dst hmem
    have hfull : Event.moveFile src dst ∈
        run_full_trace env repo_name repo_type space_sdk space_hardware priv
          destination := by
      rw [hpre]
      exact List.mem_append_left _ hmem
    simp [run_full_trace] at hfull
  · intro x hx
    rw [(hok x hx).2.2, setup_repository_fs_none]
    exact FS.read_write_self _ _ _

/-- C1 amended witness: the scenario run moves nothing and writes the
template app file. -/
theorem claim_C1_witness :
    Event.moveFile "my_app.py" "./demo-space/my_app.py" ∉
      (create_repository envAllOk fs0 "token" "demo-space" "space" "gradio"
        "cpu-basic" false "." []).2.1
    ∧ (create_repository envAllOk fs0 "token" "demo-space" "space" "gradio"
        "cpu-basic" false "." []).1.read
          (joinPath (joinPath "." "demo-space") "app.py") = some app_content :=
  ⟨(claim_C1 envAllOk fs0 "token" "demo-space" "space" "gradio" "cpu-basic"
      false ".").1 "my_app.py" "./demo-space/my_app.py",
    (claim_C1 envAllOk fs0 "token" "demo-space" "space" "gradio" "cpu-basic"
      false ".").2 (joinPath "." "demo-space") rfl⟩

end MlOpsToolkit
